import Mathlib

/-!
Verification of the oaAnsible job-orchestration core.

This file gives a shallow embedding of the server-side job orchestration code:

* `server/jobs/job_manager.py`    -- `JobManager` (cache + sqlite store)
* `server/utils/ansible_executor.py` -- `AnsibleExecutor` (registry, resolver,
  command construction, process supervision)
* `server/api/deployment_api.py`  -- `deploy_components` request handling and
  the `execute_deployment_job` background task

Modelling conventions:

* Wall-clock instants are modelled at day granularity by `Timestamp`:
  `absDay` is an absolute day index used for chronological comparison
  (ISO-8601 date strings compare chronologically, which is what the sqlite
  queries rely on), and `dayOfMonth` is the day-of-month component that
  `cleanup_old_jobs` feeds into `datetime.replace(day=...)`.  Calls to
  `datetime.now` in the Python code become explicit `now : Timestamp`
  arguments.
* The sqlite `jobs` table becomes `db : List Job` (one record per row); SQL
  `UPDATE ... WHERE job_id = ?` becomes a map over rows, `DELETE` a filter,
  `INSERT` an append guarded by the primary-key constraint (a duplicate
  insert raises in Python and leaves the table unchanged).
* The in-memory dict `_jobs_cache` becomes an association list; dict
  assignment is modelled by `cacheSet`, which is lookup-equivalent to the
  Python dict update.
* Subprocess behaviour is abstracted by `ProcOutcome`: the tool either spawns
  and exits with a code after emitting a list of output lines, or fails to
  spawn with an error message.  Filesystem checks (inventory existence)
  become explicit boolean arguments.
* Python truthiness tests on optional strings (`if message:`) are modelled by
  `optStrTruthy`; `if result:` is modelled by `Option.isSome`, since every
  result dict constructed in the source is non-empty.
-/

/-- JobStatus enumeration from `job_manager.py` (`queued`, `running`,
`completed`, `failed`, `cancelled`). -/
inductive JobStatus where
  | queued
  | running
  | completed
  | failed
  | cancelled
deriving DecidableEq, Repr

/-- String value stored in the sqlite `status` column (`JobStatus.value`). -/
def statusValue : JobStatus → String
  | JobStatus.queued => "queued"
  | JobStatus.running => "running"
  | JobStatus.completed => "completed"
  | JobStatus.failed => "failed"
  | JobStatus.cancelled => "cancelled"

/-- Terminal check used by `cancel_job` and by the cleanup SQL filter on the
status column (completed, failed, cancelled). -/
def isTerminal (st : JobStatus) : Bool :=
  st == JobStatus.completed || st == JobStatus.failed || st == JobStatus.cancelled

/-- A wall-clock instant at day granularity.  `absDay` is an absolute day
index (chronological order of the ISO strings in the database); `dayOfMonth`
is the day-of-month component used by `datetime.replace(day=...)` in
`cleanup_old_jobs`. -/
structure Timestamp where
  absDay : Nat
  dayOfMonth : Nat
deriving DecidableEq, Repr

/-- Rendering of a timestamp used inside appended log lines
(`datetime.now(timezone.utc).isoformat()`); the exact text is irrelevant to
every claim, only that a fixed prefix is prepended. -/
def isoTs (t : Timestamp) : String :=
  "day-" ++ toString t.absDay

/-- The `job_data` dict assembled by `deploy_components` and stored in the
`data` column of a job.  Option values are modelled as already-rendered
strings. -/
structure JobData where
  jobType : String
  environment : String
  components : List String
  target_hosts : List String
  execution_mode : String
  options : List (String × String)
  user : String
  user_id : String
deriving DecidableEq, Repr

/-- Result dict of `AnsibleExecutor._run_command_with_logging`. -/
structure CmdResult where
  returncode : Int
  stdout : String
  stderr : String
deriving DecidableEq, Repr

/-- Result dict returned by `AnsibleExecutor.execute_component_deployment`.
The success path fills every field; the exception path fills only
`success`, `error`, `environment`, `components`, `execution_mode` and
`job_id` (the remaining keys are absent, modelled as `none`).  Timing fields
(`duration_seconds`, `start_time`, `end_time`) are wall-clock values not
relevant to any claim and are omitted. -/
structure DeployResult where
  success : Bool
  returncode : Option Int := none
  stdout : Option String := none
  stderr : Option String := none
  command : Option String := none
  environment : String
  components : List String
  execution_mode : Option String := none
  job_id : Option String := none
  error : Option String := none
deriving DecidableEq, Repr

/-- Job record (`@dataclass Job` in `job_manager.py` / one row of the sqlite
`jobs` table). -/
structure Job where
  job_id : String
  status : JobStatus
  created_at : Timestamp
  updated_at : Timestamp
  data : JobData
  message : Option String
  result : Option DeployResult
  logs : List String
deriving DecidableEq, Repr

/-- State owned by a `JobManager`: the sqlite table and the in-memory cache
dict. -/
structure ManagerState where
  db : List Job
  cache : List (String × Job)
deriving DecidableEq, Repr

/-- Empty manager state (fresh database, empty cache). -/
def emptyState : ManagerState := { db := [], cache := [] }

/-- Python truthiness of an optional string (`if message:`): `None` and the
empty string are falsy. -/
def optStrTruthy : Option String → Bool
  | none => false
  | some s => s != ""

/-- Dict assignment `self._jobs_cache[job_id] = job`, modelled
lookup-equivalently: the new binding shadows and drops any previous binding
for the same key. -/
def cacheSet (cache : List (String × Job)) (id : String) (j : Job) :
    List (String × Job) :=
  (id, j) :: cache.filter (fun p => !(p.1 == id))

/-- Pure observation every endpoint goes through: the cache is consulted
first, then the database (`JobManager.get_job` without its cache side
effect). -/
def findJob (s : ManagerState) (id : String) : Option Job :=
  match List.lookup id s.cache with
  | some j => some j
  | none => s.db.find? (fun r => r.job_id == id)

/-- `JobManager.get_job`: cache first; on a cache miss the database row (when
present) is loaded into the cache. -/
def getJob (s : ManagerState) (id : String) : Option Job × ManagerState :=
  match List.lookup id s.cache with
  | some j => (some j, s)
  | none =>
    match s.db.find? (fun r => r.job_id == id) with
    | some j => (some j, { s with cache := cacheSet s.cache id j })
    | none => (none, s)

/-- In-place mutation of the job object performed by
`JobManager.update_job_status`: the status is set unconditionally, the
message and result only when truthy. -/
def applyStatusUpdate (job : Job) (now : Timestamp) (st : JobStatus)
    (msg : Option String) (res : Option DeployResult) : Job :=
  { job with
    status := st,
    updated_at := now,
    message := if optStrTruthy msg then msg else job.message,
    result := if res.isSome then res else job.result }

/-- SQL `UPDATE jobs SET ... WHERE job_id = ?`: rewrites the matching rows
with `g`, leaves the rest alone. -/
def dbUpdateRows (db : List Job) (id : String) (g : Job → Job) : List Job :=
  db.map (fun r => if r.job_id == id then g r else r)

/-- Columns written by the `UPDATE` statement of `update_job_status`
(`status`, `updated_at`, `message`, `result`; `logs`, `created_at` and
`data` are untouched). -/
def dbSetStatusRow (j2 : Job) (r : Job) : Job :=
  { r with
    status := j2.status,
    updated_at := j2.updated_at,
    message := j2.message,
    result := j2.result }

/-- Columns written by the `UPDATE` statement of `add_job_log`
(`logs` and `updated_at` only). -/
def dbSetLogsRow (j2 : Job) (r : Job) : Job :=
  { r with logs := j2.logs, updated_at := j2.updated_at }

/-- `JobManager.update_job_status`: fetches the job (silent return when the
id is unknown), applies the new status unconditionally -- there is no
transition table and no ConflictError anywhere in the source -- then writes
through to the database row and the cache. -/
def updateJobStatus (s : ManagerState) (now : Timestamp) (id : String)
    (st : JobStatus) (msg : Option String) (res : Option DeployResult) :
    ManagerState :=
  match getJob s id with
  | (none, s1) => s1
  | (some job, s1) =>
    let j2 := applyStatusUpdate job now st msg res
    { db := dbUpdateRows s1.db id (dbSetStatusRow j2),
      cache := cacheSet s1.cache id j2 }

/-- Timestamped log line: the entry prefixed with the bracketed current
timestamp, as formatted by `add_job_log`. -/
def logLine (now : Timestamp) (entry : String) : String :=
  "[" ++ isoTs now ++ "] " ++ entry

/-- `JobManager.add_job_log`: fetches the job (silent return when the id is
unknown), appends one timestamped line to `logs`, refreshes `updated_at`,
then writes through to the database row and the cache. -/
def addJobLog (s : ManagerState) (now : Timestamp) (id : String)
    (entry : String) : ManagerState :=
  match getJob s id with
  | (none, s1) => s1
  | (some job, s1) =>
    let j2 := { job with logs := job.logs ++ [logLine now entry], updated_at := now }
    { db := dbUpdateRows s1.db id (dbSetLogsRow j2),
      cache := cacheSet s1.cache id j2 }

/-- Job record built by `JobManager.create_job`: Queued, `created_at =
updated_at = now`, the fixed creation message, no result, empty logs. -/
def freshJob (now : Timestamp) (id : String) (data : JobData) : Job :=
  { job_id := id, status := JobStatus.queued, created_at := now,
    updated_at := now, data := data,
    message := some "Job created and queued", result := none, logs := [] }

/-- `JobManager.create_job`: builds the Queued job, INSERTs it (the
primary-key constraint makes a duplicate insert raise before any mutation)
and caches it. -/
def createJob (s : ManagerState) (now : Timestamp) (id : String)
    (data : JobData) : ManagerState :=
  if s.db.any (fun r => r.job_id == id) then s
  else
    { db := s.db ++ [freshJob now id data],
      cache := cacheSet s.cache id (freshJob now id data) }

/-- `JobManager.cancel_job`: returns false for unknown ids and for jobs in a
terminal status; otherwise transitions to Cancelled through
`update_job_status`. -/
def cancelJob (s : ManagerState) (now : Timestamp) (id : String) :
    Bool × ManagerState :=
  match getJob s id with
  | (none, s1) => (false, s1)
  | (some job, s1) =>
    if isTerminal job.status then (false, s1)
    else (true, updateJobStatus s1 now id JobStatus.cancelled
      (some "Job cancelled by user") none)

/-- `JobManager.get_job_logs`: the logs of the job, or `[]` when the id is
unknown.  (The cache side effect of the underlying `get_job` does not change
any log observation.) -/
def getJobLogs (s : ManagerState) (id : String) : List String :=
  match findJob s id with
  | some j => j.logs
  | none => []

/-- Row predicate of the cleanup DELETE and of the cache sweep: terminal and
created strictly more than `days_old` days before `now` (Nat form of the
SQL comparison of `created_at` against the date N days ago). -/
def cleanupHits (now : Timestamp) (days_old : Nat) (j : Job) : Bool :=
  isTerminal j.status && decide (j.created_at.absDay + days_old < now.absDay)

/-- `JobManager.cleanup_old_jobs`.  The DELETE removes terminal rows older
than the window and commits.  The cache sweep then computes its cutoff as
`datetime.now(timezone.utc).replace(day=datetime.now().day - days_old)`:
when the current day-of-month is at most `days_old` the computed day is
below 1 and `replace` raises ValueError, which the surrounding blanket
`except` swallows after the DELETE has already committed -- the cache is
left untouched and the function returns 0.  On the non-raising path the
cutoff equals `now` minus `days_old` days (a same-month subtraction) and
matching cache entries are removed; the row count of the DELETE is
returned. -/
def cleanupOldJobs (s : ManagerState) (now : Timestamp) (days_old : Nat) :
    ManagerState × Nat :=
  let db2 := s.db.filter (fun j => !(cleanupHits now days_old j))
  let deleted := s.db.length - db2.length
  if now.dayOfMonth ≤ days_old then
    ({ s with db := db2 }, 0)
  else
    ({ db := db2,
       cache := s.cache.filter (fun p => !(cleanupHits now days_old p.2)) },
     deleted)

/-- WHERE clause of `JobManager.list_jobs` (optional status string and
optional `json_extract` filter on the user id stored in `data`). -/
def jobMatchesFilter (j : Job) (statusFilter : Option String)
    (userId : Option String) : Bool :=
  (match statusFilter with
   | some f => statusValue j.status == f
   | none => true)
  &&
  (match userId with
   | some u => j.data.user_id == u
   | none => true)

/-- Total count returned by `JobManager.list_jobs` (`SELECT COUNT(*)` with
the same WHERE clause; pagination slices the rows but not the total). -/
def listJobsTotal (s : ManagerState) (statusFilter : Option String)
    (userId : Option String) : Nat :=
  (s.db.filter (fun j => jobMatchesFilter j statusFilter userId)).length

/-- Whether a job id appears in the `list_jobs` row set at all (the listing
paginates over database rows ordered by `created_at`, so an id appears on
some page iff its row is in the table). -/
def listJobsHasJob (s : ManagerState) (id : String) : Bool :=
  s.db.any (fun r => r.job_id == id)

/-- Status of a stored job as observed through `get_job`. -/
def statusOf (s : ManagerState) (id : String) : Option JobStatus :=
  (findJob s id).map Job.status

/-- Component Registry entry (`available_components` values in
`ansible_executor.py`). -/
structure ComponentInfo where
  platform : String
  description : String
  requires : List String
deriving DecidableEq, Repr

/-- Static component registry built in `AnsibleExecutor.__init__`. -/
def available_components : List (String × ComponentInfo) :=
  [("macos-api",
    { platform := "macos", description := "macOS API service",
      requires := ["python", "base-system"] }),
   ("macos-tracker",
    { platform := "macos", description := "oaTracker AI tracking service",
      requires := ["python", "base-system", "macos-api"] }),
   ("alpr",
    { platform := "macos", description := "ALPR license plate recognition",
      requires := ["python", "base-system"] }),
   ("base-system",
    { platform := "universal", description := "Foundation system configuration",
      requires := [] }),
   ("python",
    { platform := "universal", description := "Python runtime environment",
      requires := ["base-system"] }),
   ("node",
    { platform := "universal", description := "Node.js runtime environment",
      requires := ["base-system"] }),
   ("network-stack",
    { platform := "universal",
      description := "Network configuration including Tailscale",
      requires := ["base-system"] }),
   ("ubuntu-docker",
    { platform := "ubuntu", description := "Docker environment for Ubuntu",
      requires := ["base-system"] }),
   ("opi-player",
    { platform := "orangepi", description := "Media player service for OrangePi",
      requires := ["base-system", "python"] })]

/-- Environment names accepted by the executor and by `deploy_components`. -/
def environments : List String :=
  ["staging", "production", "preprod"]

/-- Fixed priority list of `_resolve_component_dependencies` for foundational
components. -/
def priority_order : List String :=
  ["base-system", "python", "node", "network-stack"]

/-- Sort key of `_resolve_component_dependencies`
(`priority_order.index(comp)` when listed, 100 otherwise). -/
def get_priority (comp : String) : Nat :=
  match priority_order.indexOf? comp with
  | some i => i
  | none => 100

/-- Stable insertion step: `x` goes after every already-placed element whose
key is not greater.  `stableSortByKey` below is extensionally the stable
sort the Python `sorted` builtin performs. -/
def insertByKey (key : String → Nat) (x : String) :
    List String → List String
  | [] => [x]
  | y :: ys =>
    if key y ≤ key x then y :: insertByKey key x ys else x :: y :: ys

/-- Stable sort by a numeric key (model of the Python `sorted` builtin with
a key function, which performs a stable sort). -/
def stableSortByKey (key : String → Nat) : List String → List String
  | [] => []
  | x :: xs => insertByKey key x (stableSortByKey key xs)

/-- The `while to_process:` loop of `_resolve_component_dependencies`: pop the
head; skip it when already resolved or unknown; otherwise push its not yet
resolved requirements on the front (one `insert(0, dep)` per dep, so they end
up reversed) and mark it resolved.  The accumulator keeps first-seen order;
the Python code keeps a set, and the final answer never depends on the order
because the subsequent sort is by key alone (see
`resolver_scenario_order_independent`).  The explicit `fuel` argument bounds
the iteration count; `resolveFuel` below is always sufficient because every
iteration pops one entry and entries are pushed at most once per registry
requirement. -/
def resolveLoop (reg : List (String × ComponentInfo)) :
    Nat → List String → List String → List String
  | 0, _, resolved => resolved
  | _ + 1, [], resolved => resolved
  | fuel + 1, component :: rest, resolved =>
    if resolved.contains component then
      resolveLoop reg fuel rest resolved
    else
      match List.lookup component reg with
      | none => resolveLoop reg fuel rest resolved
      | some info =>
        let pushed := (info.requires.filter (fun d => !(resolved.contains d))).reverse
        resolveLoop reg fuel (pushed ++ rest) (resolved ++ [component])

/-- Total number of `requires` edges in a registry. -/
def registryRequiresTotal (reg : List (String × ComponentInfo)) : Nat :=
  reg.foldl (fun n p => n + p.2.requires.length) 0

/-- Iteration bound for `resolveLoop`: the initial queue plus at most one push
per requirement edge. -/
def resolveFuel (reg : List (String × ComponentInfo))
    (components : List String) : Nat :=
  components.length + registryRequiresTotal reg + 1

/-- `AnsibleExecutor._resolve_component_dependencies`: transitive expansion
through `requires` edges followed by the stable priority sort. -/
def resolveComponentDependencies (reg : List (String × ComponentInfo))
    (components : List String) : List String :=
  let resolved := resolveLoop reg (resolveFuel reg components) components []
  stableSortByKey get_priority resolved

/-- Requested names absent from the registry
(`[c for c in components if c not in self.available_components]`). -/
def invalidComponentsOf (components : List String) : List String :=
  components.filter (fun c => (List.lookup c available_components).isNone)

/-- `json.dumps` of a list of plain strings with the default separators
(component names contain no characters that need escaping). -/
def jsonDumpsStrList (xs : List String) : String :=
  "[" ++ String.intercalate ", " (xs.map (fun x => "\"" ++ x ++ "\"")) ++ "]"

/-- Python `repr` of a list of plain strings (single-quoted): the rendering
produced when the ValueError raised for invalid components is converted to
a string by the exception handler. -/
def pyReprStrList (xs : List String) : String :=
  "[" ++ String.intercalate ", " (xs.map (fun x => "\x27" ++ x ++ "\x27")) ++ "]"

/-- Relative path of the universal playbook
(`self.ansible_root / "playbooks" / "universal.yml"`, rendered relative to
the ansible root). -/
def playbookPath : String := "playbooks/universal.yml"

/-- Relative path of an environment inventory
(`self.inventory_dir / environment / "hosts.yml"`). -/
def inventoryPath (environment : String) : String :=
  "inventory/" ++ environment ++ "/hosts.yml"

/-- Extra `--extra-vars` arguments contributed by the free-form options dict
(values are modelled as already-rendered strings). -/
def optionsExtraVars (options : List (String × String)) : List String :=
  options.flatMap (fun kv => ["--extra-vars", kv.1 ++ "=" ++ kv.2])

/-- The `if options and options.get("verbose", False):` test; a stored value
of `"true"` stands for Python `True`. -/
def optVerbose (options : List (String × String)) : Bool :=
  !options.isEmpty && ((List.lookup "verbose" options).getD "" == "true")

/-- Command line assembled by `execute_component_deployment`: base invocation
with the raw `components` argument JSON-embedded in the
`selected_components` extra-var, then the optional execution-mode override,
option extra-vars, `--limit`, and the verbose flag, in source order. -/
def buildCmd (environment : String) (components : List String)
    (target_hosts : List String) (execution_mode : String)
    (options : List (String × String)) : List String :=
  ((["ansible-playbook", playbookPath, "-i", inventoryPath environment,
     "--extra-vars", "execution_mode=components",
     "--extra-vars", "selected_components=" ++ jsonDumpsStrList components]
    ++ (if execution_mode != "normal" then
          ["--extra-vars", "execution_mode=" ++ execution_mode]
        else []))
   ++ optionsExtraVars options
   ++ (if target_hosts.isEmpty then [] else
         ["--limit", String.intercalate "," target_hosts]))
  ++ (if optVerbose options then ["-vv"] else [])

/-- Behaviour of the external process for one invocation: it either spawns
and terminates with an exit code after emitting a stream of output lines, or
fails to spawn (`asyncio.create_subprocess_exec` raises). -/
inductive ProcOutcome where
  | spawned (exitCode : Int) (lines : List String)
  | spawnError (msg : String)
deriving DecidableEq, Repr

/-- One log append performed by the streaming callback of
`_run_command_with_logging`.  The source constructs a fresh `JobManager()`
for every line; that manager starts with an empty cache over the same
database file and is dropped afterwards, so only the database effect
persists (the long-lived manager of `deployment_api` keeps its own cache,
which is not updated by these appends). -/
def addJobLogFreshDb (db : List Job) (now : Timestamp) (id : String)
    (entry : String) : List Job :=
  (addJobLog { db := db, cache := [] } now id entry).db

/-- `AnsibleExecutor._run_command_with_logging`: drains combined output line
by line, appending each line to the job log as it arrives; on exit it
reports the exit code with the joined output as stdout.  A spawn failure is
caught, logged as `ERROR: ...`, and reported as return code -1 with the
message in stderr. -/
def runCommandWithLogging (s : ManagerState) (now : Timestamp)
    (jobId : Option String) (out : ProcOutcome) : CmdResult × ManagerState :=
  match out with
  | ProcOutcome.spawned code lines =>
    let db2 := match jobId with
      | some id => lines.foldl (fun d line => addJobLogFreshDb d now id line) s.db
      | none => s.db
    ({ returncode := code, stdout := String.intercalate "\n" lines,
       stderr := "" },
     { s with db := db2 })
  | ProcOutcome.spawnError msg =>
    let db2 := match jobId with
      | some id => addJobLogFreshDb s.db now id ("ERROR: " ++ msg)
      | none => s.db
    ({ returncode := -1, stdout := "", stderr := msg },
     { s with db := db2 })

/-- Result dict of the `except` branch of `execute_component_deployment`
(validation failures raise ValueError inside the same `try`, so they are
reported through this shape, not propagated). -/
def failResult (err : String) (environment : String)
    (components : List String) (execution_mode : String)
    (jobId : Option String) : DeployResult :=
  { success := false, environment := environment, components := components,
    execution_mode := some execution_mode, job_id := jobId,
    error := some err }

/-- `AnsibleExecutor.execute_component_deployment`: validates the
environment, the component names and the inventory file (each failure is
caught by the surrounding `try` and reported as an unsuccessful result), then
runs the assembled command -- note that the command embeds the raw
`components` list; `_resolve_component_dependencies` is not called here --
and reports success iff the exit code is 0.  `inventoryExists` stands for
the `inventory_path.exists()` filesystem check. -/
def executeComponentDeployment (s : ManagerState) (now : Timestamp)
    (environment : String) (components : List String)
    (target_hosts : List String) (execution_mode : String)
    (options : List (String × String)) (jobId : Option String)
    (inventoryExists : Bool) (out : ProcOutcome) :
    DeployResult × ManagerState :=
  if !(environments.contains environment) then
    (failResult ("Invalid environment: " ++ environment) environment
      components execution_mode jobId, s)
  else if !(invalidComponentsOf components).isEmpty then
    (failResult ("Invalid components: " ++ pyReprStrList (invalidComponentsOf components))
      environment components execution_mode jobId, s)
  else if !inventoryExists then
    (failResult ("Inventory not found for environment: " ++ environment)
      environment components execution_mode jobId, s)
  else
    let cmd := buildCmd environment components target_hosts execution_mode options
    let run := runCommandWithLogging s now jobId out
    let success := run.1.returncode == 0
    ({ success := success,
       returncode := some run.1.returncode,
       stdout := some run.1.stdout,
       stderr := some run.1.stderr,
       command := some (String.intercalate " " cmd),
       environment := environment,
       components := components,
       execution_mode := some execution_mode,
       job_id := jobId,
       error := if success then none else some run.1.stderr },
     run.2)

/-- Caller identity attached by the authentication dependency
(`user["username"]`, `user["id"]`, `user.get("is_admin", False)`). -/
structure UserInfo where
  username : String
  id : String
  is_admin : Bool
deriving DecidableEq, Repr

/-- `ComponentRequest` pydantic model of `deployment_api.py`. -/
structure ComponentRequest where
  environment : String
  components : List String
  target_hosts : List String := []
  execution_mode : String := "normal"
  options : List (String × String) := []
deriving DecidableEq, Repr

/-- Synchronous rejection of `deploy_components`
(`HTTPException(status_code, detail)`). -/
structure ApiReject where
  statusCode : Nat
  detail : String
deriving DecidableEq, Repr

/-- The `job_data` dict assembled by `deploy_components`. -/
def mkJobData (req : ComponentRequest) (user : UserInfo) : JobData :=
  { jobType := "component_deployment",
    environment := req.environment,
    components := req.components,
    target_hosts := req.target_hosts,
    execution_mode := req.execution_mode,
    options := req.options,
    user := user.username,
    user_id := user.id }

/-- `deploy_components` endpoint: rejects an empty component list and an
unknown environment with HTTP 400 before any job exists -- these are the only
synchronous validations; component names are NOT checked here -- then
persists a Queued job and schedules the background task.  `newId` stands for
the generated `uuid.uuid4()`.  On success the new state and the job id of
the scheduled task are returned. -/
def deployComponents (s : ManagerState) (now : Timestamp)
    (req : ComponentRequest) (user : UserInfo) (newId : String) :
    Except ApiReject (ManagerState × String) :=
  if req.components.isEmpty then
    Except.error { statusCode := 400, detail := "No components specified" }
  else if !(environments.contains req.environment) then
    Except.error { statusCode := 400, detail := "Invalid environment" }
  else
    Except.ok (createJob s now newId (mkJobData req user), newId)

/-- The `result.get("error", "Unknown error")` lookup of
`execute_deployment_job` (the key is present on every constructed result
dict; the default only covers an absent key). -/
def errorOrUnknown (r : DeployResult) : String :=
  match r.error with
  | some e => e
  | none => "Unknown error"

/-- First statement of the `execute_deployment_job` background task: the job
is moved to Running unconditionally -- no concurrency ceiling is consulted
anywhere on this path. -/
def startDeploymentTask (s : ManagerState) (now : Timestamp) (id : String) :
    ManagerState :=
  updateJobStatus s now id JobStatus.running (some "Starting deployment...") none

/-- `execute_deployment_job` background task: move the job to Running, run
the executor, then record Completed or Failed from `result["success"]`.
The task-level `except` also maps any executor exception to Failed, but the
modelled executor catches internally and always returns a result dict. -/
def executeDeploymentJob (s : ManagerState) (now : Timestamp) (id : String)
    (jobData : JobData) (inventoryExists : Bool) (out : ProcOutcome) :
    ManagerState :=
  let s1 := startDeploymentTask s now id
  let run := executeComponentDeployment s1 now jobData.environment
    jobData.components jobData.target_hosts jobData.execution_mode
    jobData.options (some id) inventoryExists out
  if run.1.success then
    updateJobStatus run.2 now id JobStatus.completed
      (some "Deployment completed successfully") (some run.1)
  else
    updateJobStatus run.2 now id JobStatus.failed
      (some ("Deployment failed: " ++ errorOrUnknown run.1)) (some run.1)

/-- Number of jobs currently in status Running. -/
def runningCount (s : ManagerState) : Nat :=
  (s.db.filter (fun j => j.status == JobStatus.running)).length

/-- Default concurrency ceiling from `server_config.py`
(`OAANSIBLE_MAX_CONCURRENT_JOBS`, default 5); the value is loaded but never
consulted by the deployment path. -/
def max_concurrent_jobs : Nat := 5

/-- Submit one deployment request per id (each submission is the
`deploy_components` request path; a rejected request leaves the state as
is). -/
def deployEach (now : Timestamp) (req : ComponentRequest) (user : UserInfo) :
    ManagerState → List String → ManagerState
  | s, [] => s
  | s, id :: rest =>
    match deployComponents s now req user id with
    | Except.ok (s2, _) => deployEach now req user s2 rest
    | Except.error _ => deployEach now req user s rest

/-- Run the first statement of every scheduled background task (the tasks
run concurrently; this is the interleaving in which each task has passed its
initial Running transition and no external process has exited yet). -/
def startEach (now : Timestamp) : ManagerState → List String → ManagerState
  | s, [] => s
  | s, id :: rest => startEach now (startDeploymentTask s now id) rest

/-- Operations a `JobManager` exposes, for stating invariants over arbitrary
call sequences. -/
inductive MgrOp where
  | create (now : Timestamp) (id : String) (data : JobData)
  | updateStatus (now : Timestamp) (id : String) (st : JobStatus)
      (msg : Option String) (res : Option DeployResult)
  | addLog (now : Timestamp) (id : String) (entry : String)
  | cancel (now : Timestamp) (id : String)
  | fetch (id : String)
  | cleanup (now : Timestamp) (days : Nat)
deriving DecidableEq, Repr

/-- Whether an operation is the retention sweep. -/
def MgrOp.isCleanup : MgrOp → Bool
  | MgrOp.cleanup _ _ => true
  | _ => false

/-- Interpretation of one manager operation. -/
def applyOp (s : ManagerState) : MgrOp → ManagerState
  | MgrOp.create now id data => createJob s now id data
  | MgrOp.updateStatus now id st msg res => updateJobStatus s now id st msg res
  | MgrOp.addLog now id entry => addJobLog s now id entry
  | MgrOp.cancel now id => (cancelJob s now id).2
  | MgrOp.fetch id => (getJob s id).2
  | MgrOp.cleanup now days => (cleanupOldJobs s now days).1

/-- Interpretation of a call sequence. -/
def applyOps (s : ManagerState) (ops : List MgrOp) : ManagerState :=
  ops.foldl applyOp s

/-- Cache coherence: every cached id has a row in the database.  This holds
for every state reachable without the retention sweep (creation, updates,
log appends and cache loads all write through), and is exactly what the
buggy sweep of `cleanup_old_jobs` can break. -/
def Coherent (s : ManagerState) : Prop :=
  ∀ p ∈ s.cache, ∃ r ∈ s.db, r.job_id = p.1

/-- Sample instants (day 100 = creation day of the retention scenario job;
day 110 with day-of-month 3 = a cleanup run ten days later early in a
month). -/
def t0 : Timestamp := { absDay := 100, dayOfMonth := 21 }

/-- Instant one day after `t0`. -/
def t1 : Timestamp := { absDay := 101, dayOfMonth := 22 }

/-- Instant two days after `t0`. -/
def t2 : Timestamp := { absDay := 102, dayOfMonth := 23 }

/-- Sample authenticated caller. -/
def demoUser : UserInfo := { username := "alice", id := "u1", is_admin := false }

/-- Valid request of the end-to-end scenario
(`{environment: "staging", components: ["macos-api"]}`). -/
def demoReq : ComponentRequest :=
  { environment := "staging", components := ["macos-api"] }

/-- Job data produced for `demoReq` by `deploy_components`. -/
def demoData : JobData := mkJobData demoReq demoUser

/-- Request with an unknown component (`{components: ["bogus"]}`). -/
def bogusReq : ComponentRequest :=
  { environment := "staging", components := ["bogus"] }

/-- An already Completed job, used against illegal-transition and
cancellation claims. -/
def completedJob : Job :=
  { job_id := "done-1", status := JobStatus.completed, created_at := t0,
    updated_at := t0, data := demoData, message := some "done",
    result := none, logs := ["[day-100] finished"] }

/-- State holding one Completed job in store and cache. -/
def completedState : ManagerState :=
  { db := [completedJob], cache := [("done-1", completedJob)] }

/-- A freshly Queued job used by the execution-outcome scenarios. -/
def queuedJob : Job :=
  { job_id := "q-1", status := JobStatus.queued, created_at := t0,
    updated_at := t0, data := demoData,
    message := some "Job created and queued", result := none, logs := [] }

/-- State holding one Queued job. -/
def queuedState : ManagerState :=
  { db := [queuedJob], cache := [("q-1", queuedJob)] }

/-- Retention-scenario job: Completed, created (and finished) ten days before
the sweep below runs. -/
def retiredJob : Job :=
  { job_id := "old-1", status := JobStatus.completed, created_at := t0,
    updated_at := t0, data := demoData, message := some "done",
    result := none, logs := [] }

/-- State holding the retention-scenario job in store and cache. -/
def retiredState : ManagerState :=
  { db := [retiredJob], cache := [("old-1", retiredJob)] }

/-- The sweep instant: ten days after `retiredJob` was created, on the third
day of a month, so `datetime.replace(day=3-7)` raises inside
`cleanup_old_jobs`. -/
def sweepNow : Timestamp := { absDay := 110, dayOfMonth := 3 }

/-- Registry of the resolver scenario: `tracker requires [python]`,
`python requires [base-system]`, `base-system requires []`. -/
def trackerRegistry : List (String × ComponentInfo) :=
  [("tracker",
    { platform := "macos", description := "tracking service",
      requires := ["python"] }),
   ("python",
    { platform := "universal", description := "Python runtime environment",
      requires := ["base-system"] }),
   ("base-system",
    { platform := "universal", description := "Foundation system configuration",
      requires := [] })]

/-- Six distinct job ids, one above the default concurrency ceiling of 5. -/
def sixIds : List String := ["j1", "j2", "j3", "j4", "j5", "j6"]

/-- State reached after six valid submissions were accepted and each of the
six concurrently scheduled background tasks has executed its initial
Running transition. -/
def sixRunningState : ManagerState :=
  startEach t1 (deployEach t0 demoReq demoUser emptyState sixIds) sixIds

/-- Looking up the freshly assigned key returns the new binding. -/
theorem lookup_cacheSet_self (c : List (String × Job)) (id : String) (j : Job) :
    List.lookup id (cacheSet c id j) = some j := by
  simp [cacheSet, List.lookup]

/-- Dropping the bindings of one key does not change lookups of other keys. -/
theorem lookup_filter_ne (c : List (String × Job)) (id id2 : String)
    (h : id2 ≠ id) :
    List.lookup id2 (c.filter (fun p => !(p.1 == id))) = List.lookup id2 c := by
  induction c with
  | nil => rfl
  | cons p t ih =>
    by_cases hp : p.1 = id
    · have h2 : (id2 == p.1) = false := by
        rw [hp]; exact beq_eq_false_iff_ne.mpr h
      have h3 : (id2 == id) = false := beq_eq_false_iff_ne.mpr h
      simp [List.filter_cons, hp, List.lookup, h2, h3, ih]
    · have hp2 : (p.1 == id) = false := beq_eq_false_iff_ne.mpr hp
      by_cases he : id2 = p.1
      · simp [List.filter_cons, hp2, List.lookup, he]
      · have h2 : (id2 == p.1) = false := beq_eq_false_iff_ne.mpr he
        simp [List.filter_cons, hp2, List.lookup, h2, ih]

/-- Assigning one key does not change lookups of other keys. -/
theorem lookup_cacheSet_ne (c : List (String × Job)) (id id2 : String)
    (j : Job) (h : id2 ≠ id) :
    List.lookup id2 (cacheSet c id j) = List.lookup id2 c := by
  have h2 : (id2 == id) = false := beq_eq_false_iff_ne.mpr h
  simp [cacheSet, List.lookup, h2, lookup_filter_ne c id id2 h]

/-- A row update targeting one id does not change row searches for another
id, provided the update preserves the id column. -/
theorem find_dbUpdateRows_ne (db : List Job) (id id2 : String) (g : Job → Job)
    (hg : ∀ r, (g r).job_id = r.job_id) (h : id2 ≠ id) :
    (dbUpdateRows db id g).find? (fun r => r.job_id == id2) =
      db.find? (fun r => r.job_id == id2) := by
  induction db with
  | nil => rfl
  | cons r t ih =>
    by_cases hr : r.job_id = id
    · have hb : (r.job_id == id) = true := by rw [hr]; exact beq_self_eq_true id
      have hne : (r.job_id == id2) = false := by
        rw [hr]; exact beq_eq_false_iff_ne.mpr (fun e => h e.symm)
      have hgne : ((g r).job_id == id2) = false := by
        rw [hg r]; exact hne
      simp [dbUpdateRows, List.find?, hb, hne, hgne] at *
      exact ih
    · have hb : (r.job_id == id) = false := beq_eq_false_iff_ne.mpr hr
      by_cases hr2 : r.job_id = id2
      · have h2 : (r.job_id == id2) = true := by
          rw [hr2]; exact beq_self_eq_true id2
        simp [dbUpdateRows, List.find?, hb, h2]
      · have h2 : (r.job_id == id2) = false := beq_eq_false_iff_ne.mpr hr2
        simp [dbUpdateRows, List.find?, hb, h2] at *
        exact ih

/-- The job returned by `get_job` is exactly the cache-first observation. -/
theorem getJob_fst (s : ManagerState) (id : String) :
    (getJob s id).1 = findJob s id := by
  unfold getJob findJob
  cases h : List.lookup id s.cache with
  | some j => rfl
  | none =>
    cases h2 : s.db.find? (fun r => r.job_id == id) with
    | some j => rfl
    | none => rfl

/-- When the id is unknown to cache and store, `get_job` changes nothing. -/
theorem getJob_of_none (s : ManagerState) (id : String)
    (h : findJob s id = none) : getJob s id = (none, s) := by
  unfold findJob at h
  unfold getJob
  cases hc : List.lookup id s.cache with
  | some j => rw [hc] at h; simp at h
  | none =>
    rw [hc] at h
    simp only at h
    simp only
    rw [h]

/-- The cache side effect of `get_job` changes no observation. -/
theorem findJob_getJob_snd (s : ManagerState) (id id2 : String) :
    findJob (getJob s id).2 id2 = findJob s id2 := by
  unfold getJob
  cases hc : List.lookup id s.cache with
  | some j => rfl
  | none =>
    cases hd : s.db.find? (fun r => r.job_id == id) with
    | some j =>
      by_cases he : id2 = id
      · subst he
        unfold findJob
        simp only
        rw [lookup_cacheSet_self, hc, hd]
      · unfold findJob
        simp only
        rw [lookup_cacheSet_ne s.cache id id2 j he]
    | none => rfl

/-- When `get_job` finds the job, its second component keeps the database
unchanged. -/
theorem getJob_snd_db (s : ManagerState) (id : String) :
    (getJob s id).2.db = s.db := by
  unfold getJob
  cases List.lookup id s.cache with
  | some j => rfl
  | none =>
    cases s.db.find? (fun r => r.job_id == id) with
    | some j => rfl
    | none => rfl

/-- Observation after a combined cache/store write-through, at the written
id. -/
theorem findJob_writeThrough_self (s1 : ManagerState) (id : String) (j2 : Job)
    (g : Job → Job) :
    findJob { db := dbUpdateRows s1.db id g, cache := cacheSet s1.cache id j2 }
      id = some j2 := by
  unfold findJob
  simp only
  rw [lookup_cacheSet_self]

/-- Observation after a combined cache/store write-through, at any other
id. -/
theorem findJob_writeThrough_ne (s1 : ManagerState) (id id2 : String)
    (j2 : Job) (g : Job → Job) (hg : ∀ r, (g r).job_id = r.job_id)
    (h : id2 ≠ id) :
    findJob { db := dbUpdateRows s1.db id g, cache := cacheSet s1.cache id j2 }
      id2 = findJob s1 id2 := by
  unfold findJob
  simp only
  rw [lookup_cacheSet_ne s1.cache id id2 j2 h]
  cases List.lookup id2 s1.cache with
  | some j => rfl
  | none => exact find_dbUpdateRows_ne s1.db id id2 g hg h

/-- `update_job_status` on an unknown id is a silent no-op. -/
theorem updateJobStatus_of_none (s : ManagerState) (now : Timestamp)
    (id : String) (st : JobStatus) (msg : Option String)
    (res : Option DeployResult) (h : findJob s id = none) :
    updateJobStatus s now id st msg res = s := by
  unfold updateJobStatus
  rw [getJob_of_none s id h]

/-- `update_job_status` on a stored job rewrites exactly the fetched record
through `applyStatusUpdate`. -/
theorem findJob_updateJobStatus_self (s : ManagerState) (now : Timestamp)
    (id : String) (st : JobStatus) (msg : Option String)
    (res : Option DeployResult) (j : Job) (h : findJob s id = some j) :
    findJob (updateJobStatus s now id st msg res) id =
      some (applyStatusUpdate j now st msg res) := by
  have h1 : (getJob s id).1 = some j := by rw [getJob_fst]; exact h
  unfold updateJobStatus
  cases hg : getJob s id with
  | mk opt s1 =>
    rw [hg] at h1
    simp only at h1
    subst h1
    simp only
    exact findJob_writeThrough_self s1 id _ _

/-- `update_job_status` leaves every other job unchanged. -/
theorem findJob_updateJobStatus_ne (s : ManagerState) (now : Timestamp)
    (id id2 : String) (st : JobStatus) (msg : Option String)
    (res : Option DeployResult) (h : id2 ≠ id) :
    findJob (updateJobStatus s now id st msg res) id2 = findJob s id2 := by
  unfold updateJobStatus
  cases hg : getJob s id with
  | mk opt s1 =>
    have hs1 : findJob s1 id2 = findJob s id2 := by
      have := findJob_getJob_snd s id id2
      rw [hg] at this
      exact this
    cases opt with
    | none => simp only; exact hs1
    | some j =>
      simp only
      rw [findJob_writeThrough_ne s1 id id2 (applyStatusUpdate j now st msg res)
        (dbSetStatusRow (applyStatusUpdate j now st msg res))
        (fun r => rfl) h]
      exact hs1

/-- `add_job_log` on an unknown id is a silent no-op. -/
theorem addJobLog_of_none (s : ManagerState) (now : Timestamp) (id : String)
    (entry : String) (h : findJob s id = none) :
    addJobLog s now id entry = s := by
  unfold addJobLog
  rw [getJob_of_none s id h]

/-- `add_job_log` on a stored job appends exactly one timestamped line. -/
theorem findJob_addJobLog_self (s : ManagerState) (now : Timestamp)
    (id : String) (entry : String) (j : Job) (h : findJob s id = some j) :
    findJob (addJobLog s now id entry) id =
      some { j with logs := j.logs ++ [logLine now entry], updated_at := now } := by
  have h1 : (getJob s id).1 = some j := by rw [getJob_fst]; exact h
  unfold addJobLog
  cases hg : getJob s id with
  | mk opt s1 =>
    rw [hg] at h1
    simp only at h1
    subst h1
    simp only
    exact findJob_writeThrough_self s1 id _ _

/-- `add_job_log` leaves every other job unchanged. -/
theorem findJob_addJobLog_ne (s : ManagerState) (now : Timestamp)
    (id id2 : String) (entry : String) (h : id2 ≠ id) :
    findJob (addJobLog s now id entry) id2 = findJob s id2 := by
  unfold addJobLog
  cases hg : getJob s id with
  | mk opt s1 =>
    have hs1 : findJob s1 id2 = findJob s id2 := by
      have := findJob_getJob_snd s id id2
      rw [hg] at this
      exact this
    cases opt with
    | none => simp only; exact hs1
    | some j =>
      simp only
      rw [findJob_writeThrough_ne s1 id id2
        { j with logs := j.logs ++ [logLine now entry], updated_at := now }
        (dbSetLogsRow { j with logs := j.logs ++ [logLine now entry], updated_at := now })
        (fun r => rfl) h]
      exact hs1

/-- A duplicate insert raises on the primary-key constraint before any
mutation happened, leaving the state unchanged. -/
theorem createJob_of_existing (s : ManagerState) (now : Timestamp)
    (id : String) (data : JobData)
    (h : s.db.any (fun r => r.job_id == id) = true) :
    createJob s now id data = s := by
  unfold createJob
  rw [h]
  rfl

/-- After a fresh insert the new job is observable under its id. -/
theorem findJob_createJob_self (s : ManagerState) (now : Timestamp)
    (id : String) (data : JobData)
    (h : s.db.any (fun r => r.job_id == id) = false) :
    findJob (createJob s now id data) id = some (freshJob now id data) := by
  unfold createJob
  rw [h]
  simp only [Bool.false_eq_true, if_false]
  unfold findJob
  simp only
  rw [lookup_cacheSet_self]

/-- `create_job` leaves every other job unchanged. -/
theorem findJob_createJob_ne (s : ManagerState) (now : Timestamp)
    (id id2 : String) (data : JobData) (h : id2 ≠ id) :
    findJob (createJob s now id data) id2 = findJob s id2 := by
  unfold createJob
  cases hb : s.db.any (fun r => r.job_id == id) with
  | true => rfl
  | false =>
    simp only [Bool.false_eq_true, if_false]
    unfold findJob
    simp only
    rw [lookup_cacheSet_ne s.cache id id2 (freshJob now id data) h]
    cases List.lookup id2 s.cache with
    | some j => rfl
    | none =>
      rw [List.find?_append]
      have : List.find? (fun r => r.job_id == id2) [freshJob now id data] = none := by
        simp [List.find?, freshJob, beq_eq_false_iff_ne.mpr (fun e => h e.symm)]
      rw [this]
      cases List.find? (fun r => r.job_id == id2) s.db with
      | some j => rfl
      | none => rfl

/-- A successful association lookup exhibits a member of the list. -/
theorem mem_of_lookup_eq_some (l : List (String × Job)) (a : String) (b : Job)
    (h : List.lookup a l = some b) : (a, b) ∈ l := by
  induction l with
  | nil => simp [List.lookup] at h
  | cons p t ih =>
    by_cases he : a = p.1
    · have hb : (a == p.1) = true := by rw [he]; exact beq_self_eq_true p.1
      obtain ⟨k, v⟩ := p
      simp only at hb
      simp only [List.lookup, hb] at h
      simp only at he
      cases h
      subst he
      exact List.mem_cons_self _ _
    · have hb : (a == p.1) = false := beq_eq_false_iff_ne.mpr he
      obtain ⟨k, v⟩ := p
      simp only at hb
      simp only [List.lookup, hb] at h
      exact List.mem_cons_of_mem _ (ih h)

/-- A stored observation is backed by a database row with the same id,
assuming cache coherence. -/
theorem exists_db_row_of_findJob (s : ManagerState) (id : String) (j : Job)
    (hc : Coherent s) (h : findJob s id = some j) :
    ∃ r ∈ s.db, r.job_id = id := by
  unfold findJob at h
  cases hl : List.lookup id s.cache with
  | some j2 => exact hc (id, j2) (mem_of_lookup_eq_some s.cache id j2 hl)
  | none =>
    rw [hl] at h
    simp only at h
    refine ⟨j, List.mem_of_find?_eq_some h, ?_⟩
    have := List.find?_some h
    exact eq_of_beq this

/-- A row search that succeeds forces the duplicate-insert guard of
`create_job` to fire. -/
theorem any_eq_true_of_row (db : List Job) (id : String) (r : Job)
    (hm : r ∈ db) (hid : r.job_id = id) :
    db.any (fun x => x.job_id == id) = true := by
  refine List.any_eq_true.mpr ⟨r, hm, ?_⟩
  rw [hid]
  exact beq_self_eq_true id

/-- Row updates that keep the id column keep one row per id present. -/
theorem exists_row_dbUpdateRows (db : List Job) (id tid : String)
    (g : Job → Job) (hg : ∀ r, (g r).job_id = r.job_id)
    (h : ∃ r ∈ db, r.job_id = tid) :
    ∃ r ∈ dbUpdateRows db id g, r.job_id = tid := by
  obtain ⟨r, hm, hid⟩ := h
  refine ⟨(fun x => if x.job_id == id then g x else x) r,
    List.mem_map_of_mem _ hm, ?_⟩
  by_cases hr : (r.job_id == id) = true
  · simp only [hr, if_true]
    rw [hg r]
    exact hid
  · simp only [hr, if_false]
    exact hid

/-- Coherence survives a combined cache/store write-through, provided a row
with the written id exists. -/
theorem coherent_writeThrough (s1 : ManagerState) (id : String) (j2 : Job)
    (g : Job → Job) (hg : ∀ r, (g r).job_id = r.job_id) (hc : Coherent s1)
    (hrow : ∃ r ∈ s1.db, r.job_id = id) :
    Coherent { db := dbUpdateRows s1.db id g, cache := cacheSet s1.cache id j2 } := by
  intro p hp
  simp only [cacheSet] at hp
  rcases List.mem_cons.mp hp with he | hf
  · subst he
    exact exists_row_dbUpdateRows s1.db id id g hg hrow
  · exact exists_row_dbUpdateRows s1.db id p.1 g hg
      (hc p (List.mem_of_mem_filter hf))

/-- Coherence survives the cache load performed by `get_job`. -/
theorem coherent_getJob_snd (s : ManagerState) (id : String)
    (hc : Coherent s) : Coherent (getJob s id).2 := by
  unfold getJob
  cases hl : List.lookup id s.cache with
  | some j => exact hc
  | none =>
    cases hd : s.db.find? (fun r => r.job_id == id) with
    | some j =>
      intro p hp
      simp only [cacheSet] at hp
      rcases List.mem_cons.mp hp with he | hf
      · subst he
        refine ⟨j, List.mem_of_find?_eq_some hd, ?_⟩
        show j.job_id = id
        have hp := List.find?_some hd
        have hp2 : (j.job_id == id) = true := hp
        exact eq_of_beq hp2
      · exact hc p (List.mem_of_mem_filter hf)
    | none => exact hc

/-- Coherence survives `update_job_status`. -/
theorem coherent_updateJobStatus (s : ManagerState) (now : Timestamp)
    (id : String) (st : JobStatus) (msg : Option String)
    (res : Option DeployResult) (hc : Coherent s) :
    Coherent (updateJobStatus s now id st msg res) := by
  unfold updateJobStatus
  cases hg : getJob s id with
  | mk opt s1 =>
    have hc1 : Coherent s1 := by
      have := coherent_getJob_snd s id hc
      rw [hg] at this
      exact this
    cases opt with
    | none => exact hc1
    | some j =>
      simp only
      apply coherent_writeThrough s1 id (applyStatusUpdate j now st msg res)
        (dbSetStatusRow (applyStatusUpdate j now st msg res)) (fun r => rfl) hc1
      have hfj : findJob s id = some j := by
        have := getJob_fst s id
        rw [hg] at this
        exact this.symm
      have hrow := exists_db_row_of_findJob s id j hc hfj
      have hdb : s1.db = s.db := by
        have := getJob_snd_db s id
        rw [hg] at this
        exact this
      rw [hdb]
      exact hrow

/-- Coherence survives `add_job_log`. -/
theorem coherent_addJobLog (s : ManagerState) (now : Timestamp) (id : String)
    (entry : String) (hc : Coherent s) :
    Coherent (addJobLog s now id entry) := by
  unfold addJobLog
  cases hg : getJob s id with
  | mk opt s1 =>
    have hc1 : Coherent s1 := by
      have := coherent_getJob_snd s id hc
      rw [hg] at this
      exact this
    cases opt with
    | none => exact hc1
    | some j =>
      simp only
      apply coherent_writeThrough s1 id
        { j with logs := j.logs ++ [logLine now entry], updated_at := now }
        (dbSetLogsRow { j with logs := j.logs ++ [logLine now entry], updated_at := now })
        (fun r => rfl) hc1
      have hfj : findJob s id = some j := by
        have := getJob_fst s id
        rw [hg] at this
        exact this.symm
      have hrow := exists_db_row_of_findJob s id j hc hfj
      have hdb : s1.db = s.db := by
        have := getJob_snd_db s id
        rw [hg] at this
        exact this
      rw [hdb]
      exact hrow

/-- Coherence survives `create_job`. -/
theorem coherent_createJob (s : ManagerState) (now : Timestamp) (id : String)
    (data : JobData) (hc : Coherent s) :
    Coherent (createJob s now id data) := by
  unfold createJob
  cases hb : s.db.any (fun r => r.job_id == id) with
  | true => exact hc
  | false =>
    simp only [Bool.false_eq_true, if_false]
    intro p hp
    simp only [cacheSet] at hp
    rcases List.mem_cons.mp hp with he | hf
    · subst he
      exact ⟨freshJob now id data,
        List.mem_append_right _ (List.mem_singleton.mpr rfl), rfl⟩
    · obtain ⟨r, hm, hid⟩ := hc p (List.mem_of_mem_filter hf)
      exact ⟨r, List.mem_append_left _ hm, hid⟩

/-- Coherence survives `cancel_job`. -/
theorem coherent_cancelJob (s : ManagerState) (now : Timestamp) (id : String)
    (hc : Coherent s) : Coherent (cancelJob s now id).2 := by
  unfold cancelJob
  cases hg : getJob s id with
  | mk opt s1 =>
    have hc1 : Coherent s1 := by
      have := coherent_getJob_snd s id hc
      rw [hg] at this
      exact this
    cases opt with
    | none => exact hc1
    | some j =>
      simp only
      by_cases ht : isTerminal j.status = true
      · simp only [ht, if_true]
        exact hc1
      · have ht2 : isTerminal j.status = false := by
          cases h2 : isTerminal j.status with
          | true => exact absurd h2 ht
          | false => rfl
        simp only [ht2, Bool.false_eq_true, if_false]
        have hs1 : s1 = (getJob s id).2 := by rw [hg]
        rw [hs1]
        exact coherent_updateJobStatus (getJob s id).2 now id JobStatus.cancelled
          (some "Job cancelled by user") none (coherent_getJob_snd s id hc)

/-- Equal observations give equal log snapshots. -/
theorem getJobLogs_congr (s2 s : ManagerState) (id : String)
    (h : findJob s2 id = findJob s id) : getJobLogs s2 id = getJobLogs s id := by
  unfold getJobLogs
  rw [h]

/-- Coherence survives every operation other than the retention sweep. -/
theorem coherent_applyOp (s : ManagerState) (op : MgrOp) (hc : Coherent s)
    (hop : op.isCleanup = false) : Coherent (applyOp s op) := by
  cases op with
  | create now id data => exact coherent_createJob s now id data hc
  | updateStatus now id st msg res =>
    exact coherent_updateJobStatus s now id st msg res hc
  | addLog now id entry => exact coherent_addJobLog s now id entry hc
  | cancel now id => exact coherent_cancelJob s now id hc
  | fetch id => exact coherent_getJob_snd s id hc
  | cleanup now days => simp [MgrOp.isCleanup] at hop

/-- One manager operation other than the retention sweep never truncates or
reorders a log list: the old snapshot is a prefix of the new one. -/
theorem getJobLogs_applyOp_prefix (s : ManagerState) (op : MgrOp) (id : String)
    (hc : Coherent s) (hop : op.isCleanup = false) :
    getJobLogs s id <+: getJobLogs (applyOp s op) id := by
  cases op with
  | create now cid data =>
    show getJobLogs s id <+: getJobLogs (createJob s now cid data) id
    cases hb : s.db.any (fun r => r.job_id == cid) with
    | true =>
      rw [createJob_of_existing s now cid data hb]
    | false =>
      by_cases hid : id = cid
      · subst hid
        have hnone : findJob s id = none := by
          unfold findJob
          cases hl : List.lookup id s.cache with
          | some j =>
            obtain ⟨r, hm, hrid⟩ := hc (id, j) (mem_of_lookup_eq_some s.cache id j hl)
            rw [any_eq_true_of_row s.db id r hm hrid] at hb
            cases hb
          | none =>
            simp only
            cases hd : s.db.find? (fun r => r.job_id == id) with
            | some j =>
              have hp := List.find?_some hd
              have hp2 : (j.job_id == id) = true := hp
              rw [any_eq_true_of_row s.db id j (List.mem_of_find?_eq_some hd)
                (eq_of_beq hp2)] at hb
              cases hb
            | none => rfl
        have hbefore : getJobLogs s id = [] := by
          unfold getJobLogs
          rw [hnone]
        rw [hbefore]
        exact List.nil_prefix
      · rw [getJobLogs_congr (createJob s now cid data) s id
          (findJob_createJob_ne s now cid id data hid)]
  | updateStatus now uid st msg res =>
    show getJobLogs s id <+: getJobLogs (updateJobStatus s now uid st msg res) id
    by_cases hid : id = uid
    · subst hid
      cases hf : findJob s id with
      | none => rw [updateJobStatus_of_none s now id st msg res hf]
      | some j =>
        have hafter := findJob_updateJobStatus_self s now id st msg res j hf
        unfold getJobLogs
        rw [hf, hafter]
        exact List.prefix_refl _
    · rw [getJobLogs_congr (updateJobStatus s now uid st msg res) s id
        (findJob_updateJobStatus_ne s now uid id st msg res hid)]
  | addLog now aid entry =>
    show getJobLogs s id <+: getJobLogs (addJobLog s now aid entry) id
    by_cases hid : id = aid
    · subst hid
      cases hf : findJob s id with
      | none => rw [addJobLog_of_none s now id entry hf]
      | some j =>
        have hafter := findJob_addJobLog_self s now id entry j hf
        unfold getJobLogs
        rw [hf, hafter]
        exact List.prefix_append _ _
    · rw [getJobLogs_congr (addJobLog s now aid entry) s id
        (findJob_addJobLog_ne s now aid id entry hid)]
  | cancel now cid =>
    show getJobLogs s id <+: getJobLogs (cancelJob s now cid).2 id
    unfold cancelJob
    cases hg : getJob s cid with
    | mk opt s1 =>
      have hinv : findJob s1 id = findJob s id := by
        have := findJob_getJob_snd s cid id
        rw [hg] at this
        exact this
      cases opt with
      | none =>
        simp only
        rw [getJobLogs_congr s1 s id hinv]
      | some j =>
        simp only
        by_cases ht : isTerminal j.status = true
        · simp only [ht, if_true]
          rw [getJobLogs_congr s1 s id hinv]
        · have ht2 : isTerminal j.status = false := by
            cases h2 : isTerminal j.status with
            | true => exact absurd h2 ht
            | false => rfl
          simp only [ht2, Bool.false_eq_true, if_false]
          by_cases hid : id = cid
          · subst hid
            have hfj : findJob s id = some j := by
              have := getJob_fst s id
              rw [hg] at this
              exact this.symm
            have hfj1 : findJob s1 id = some j := by rw [hinv]; exact hfj
            have hafter := findJob_updateJobStatus_self s1 now id
              JobStatus.cancelled (some "Job cancelled by user") none j hfj1
            unfold getJobLogs
            rw [hfj, hafter]
            exact List.prefix_refl _
          · rw [getJobLogs_congr
              (updateJobStatus s1 now cid JobStatus.cancelled
                (some "Job cancelled by user") none) s1 id
              (findJob_updateJobStatus_ne s1 now cid id JobStatus.cancelled
                (some "Job cancelled by user") none hid)]
            rw [getJobLogs_congr s1 s id hinv]
  | fetch fid =>
    show getJobLogs s id <+: getJobLogs (getJob s fid).2 id
    rw [getJobLogs_congr (getJob s fid).2 s id (findJob_getJob_snd s fid id)]
  | cleanup now days => simp [MgrOp.isCleanup] at hop

/-- C6: for every job id and every sequence of manager operations that does
not include the retention sweep, the logs observed later extend the logs
observed earlier as a prefix -- `add_job_log` only appends timestamped lines
at the end, and no other operation drops, removes or reorders entries.
(`Coherent` says every cached id is backed by a store row, which holds in
every state reachable without the sweep.) -/
theorem C6_append_log_monotone (s : ManagerState) (ops : List MgrOp)
    (id : String) (hc : Coherent s)
    (hops : ∀ op ∈ ops, op.isCleanup = false) :
    getJobLogs s id <+: getJobLogs (applyOps s ops) id := by
  induction ops generalizing s with
  | nil => exact List.prefix_refl _
  | cons op rest ih =>
    have h0 : op.isCleanup = false := hops op (List.mem_cons_self op rest)
    have h1 := getJobLogs_applyOp_prefix s op id hc h0
    have h2 := ih (applyOp s op) (coherent_applyOp s op hc h0)
      (fun o ho => hops o (List.mem_cons_of_mem op ho))
    have happ : applyOps s (op :: rest) = applyOps (applyOp s op) rest := rfl
    rw [happ]
    exact h1.trans h2

/-- Witness for C6: a concrete run mixing log appends, a status update and a
cancellation keeps the earlier snapshot as a prefix. -/
theorem C6_append_log_monotone_witness :
    getJobLogs queuedState "q-1" <+:
      getJobLogs (applyOps queuedState
        [MgrOp.addLog t1 "q-1" "line one",
         MgrOp.updateStatus t1 "q-1" JobStatus.running
           (some "Starting deployment...") none,
         MgrOp.addLog t2 "q-1" "line two",
         MgrOp.cancel t2 "q-1"]) "q-1" := by
  apply C6_append_log_monotone
  · unfold Coherent
    decide
  · decide

/-- C1 counterexample: `update_job_status` applies the illegal transition
Completed -> Running instead of raising ConflictError, and the stored record
changes (status and `updated_at`). -/
theorem C1_counterexample_completed_to_running :
    statusOf (updateJobStatus completedState t1 "done-1" JobStatus.running
      none none) "done-1" = some JobStatus.running ∧
    findJob (updateJobStatus completedState t1 "done-1" JobStatus.running
      none none) "done-1" ≠ some completedJob := by
  decide

/-- C1 amended: `update_job_status` enforces no transition table at all.  For
every stored job and every requested status -- legal or illegal -- the new
status is applied, `updated_at` is refreshed, the logs are untouched, and
every other job is unchanged; no ConflictError exists in the code. -/
theorem C1_update_status_unconditional (s : ManagerState) (now : Timestamp)
    (id : String) (st : JobStatus) (msg : Option String)
    (res : Option DeployResult) (j : Job) (hj : findJob s id = some j) :
    statusOf (updateJobStatus s now id st msg res) id = some st ∧
    (findJob (updateJobStatus s now id st msg res) id).map Job.updated_at
      = some now ∧
    (findJob (updateJobStatus s now id st msg res) id).map Job.logs
      = some j.logs ∧
    ∀ id2, id2 ≠ id →
      findJob (updateJobStatus s now id st msg res) id2 = findJob s id2 := by
  have h := findJob_updateJobStatus_self s now id st msg res j hj
  refine ⟨?_, ?_, ?_, ?_⟩
  · unfold statusOf
    rw [h]
    rfl
  · rw [h]
    rfl
  · rw [h]
    rfl
  · intro id2 hne
    exact findJob_updateJobStatus_ne s now id id2 st msg res hne

/-- Witness for the amended C1: the (equally illegal) jump Queued ->
Completed is applied unconditionally. -/
theorem C1_update_status_unconditional_witness :
    statusOf (updateJobStatus queuedState t1 "q-1" JobStatus.completed
      none none) "q-1" = some JobStatus.completed :=
  (C1_update_status_unconditional queuedState t1 "q-1" JobStatus.completed
    none none queuedJob (by decide)).1

/-- C5: on the scenario registry (`tracker requires [python]`, `python
requires [base-system]`, `base-system requires []`), resolving
`["tracker"]` yields exactly `["base-system", "python", "tracker"]` with no
duplicates. -/
theorem C5_resolver_scenario :
    resolveComponentDependencies trackerRegistry ["tracker"]
      = ["base-system", "python", "tracker"] ∧
    (resolveComponentDependencies trackerRegistry ["tracker"]).Nodup := by
  decide

/-- The Python implementation collects the expansion into a `set` whose
iteration order is unspecified; the final sorted order is nevertheless
well-defined here because the three priorities are distinct: every
permutation of the expansion sorts to the same sequence. -/
theorem resolver_scenario_order_independent :
    ∀ l ∈ ([["tracker", "python", "base-system"],
            ["tracker", "base-system", "python"],
            ["python", "tracker", "base-system"],
            ["python", "base-system", "tracker"],
            ["base-system", "tracker", "python"],
            ["base-system", "python", "tracker"]] : List (List String)),
      stableSortByKey get_priority l = ["base-system", "python", "tracker"] := by
  decide

/-- C3 counterexample: for the end-to-end scenario request the command line
embeds `selected_components=["macos-api"]` -- the raw requested list -- and
does not contain the resolver output `["base-system","python","macos-api"]`,
even though the resolver would produce exactly that order. -/
theorem C3_counterexample_raw_list_passed :
    ((buildCmd "staging" ["macos-api"] [] "normal" []).contains
      ("selected_components=" ++ jsonDumpsStrList ["macos-api"]) = true) ∧
    ((buildCmd "staging" ["macos-api"] [] "normal" []).contains
      ("selected_components=" ++ jsonDumpsStrList
        (resolveComponentDependencies available_components ["macos-api"]))
      = false) ∧
    resolveComponentDependencies available_components ["macos-api"]
      = ["base-system", "python", "macos-api"] := by
  decide

/-- C3 amended: the execution path never consults the dependency resolver;
for every request the `selected_components` extra-var embedded in the
command line is the JSON rendering of the raw requested component list
(the resolver is reachable only from `validate_deployment_request`). -/
theorem C3_command_embeds_raw_list (environment : String)
    (components target_hosts : List String) (execution_mode : String)
    (options : List (String × String)) :
    ("selected_components=" ++ jsonDumpsStrList components) ∈
      buildCmd environment components target_hosts execution_mode options := by
  unfold buildCmd
  apply List.mem_append_left
  apply List.mem_append_left
  apply List.mem_append_left
  apply List.mem_append_left
  simp

/-- C7 counterexample: six valid submissions are all promoted to Running by
their background tasks while the configured ceiling is five -- no submission
stays Queued waiting for a slot. -/
theorem C7_counterexample_ceiling_exceeded :
    runningCount sixRunningState = 6 ∧
    max_concurrent_jobs = 5 ∧
    ¬ runningCount sixRunningState ≤ max_concurrent_jobs := by
  decide

/-- C7 amended: no concurrency ceiling is consulted anywhere on the
deployment path: whatever the current state -- in particular however many
jobs are already Running -- the background task of an existing job moves it
to Running immediately. -/
theorem C7_promotion_unconditional (s : ManagerState) (now : Timestamp)
    (id : String) (j : Job) (hj : findJob s id = some j) :
    statusOf (startDeploymentTask s now id) id = some JobStatus.running := by
  unfold startDeploymentTask statusOf
  rw [findJob_updateJobStatus_self s now id JobStatus.running
    (some "Starting deployment...") none j hj]
  rfl

/-- Witness for the amended C7: the task start promotes a queued job in a
state that already has six running jobs. -/
theorem C7_promotion_unconditional_witness :
    statusOf (startDeploymentTask
      (createJob sixRunningState t1 "j7" demoData) t1 "j7") "j7"
      = some JobStatus.running :=
  C7_promotion_unconditional (createJob sixRunningState t1 "j7" demoData)
    t1 "j7" (freshJob t1 "j7" demoData) (by decide)

/-- C8: the code is expected to make a purged job unobservable, but on any
day-of-month at most the retention window the cache sweep of
`cleanup_old_jobs` raises ValueError (the `replace(day=now.day - days)` call
computes a day below 1) after the DELETE has committed: the terminal job
created ten days before the sweep is gone from the store and from
`list_jobs`, yet `get_job` still returns the full record from the cache and
the reported deletion count is 0. -/
theorem C8_cleanup_leaves_cached_job_visible :
    cleanupHits sweepNow 7 retiredJob = true ∧
    listJobsHasJob (cleanupOldJobs retiredState sweepNow 7).1 "old-1" = false ∧
    (getJob (cleanupOldJobs retiredState sweepNow 7).1 "old-1").1
      = some retiredJob ∧
    (cleanupOldJobs retiredState sweepNow 7).2 = 0 := by
  decide

/-- C9: cancelling a job already in a terminal status (in particular
Completed) returns false and changes no observation: the record -- including
`updated_at`, `message` and `result` -- stays exactly as it was. -/
theorem C9_cancel_terminal_noop (s : ManagerState) (now : Timestamp)
    (id : String) (j : Job) (hj : findJob s id = some j)
    (hterm : isTerminal j.status = true) :
    (cancelJob s now id).1 = false ∧
    ∀ id2, findJob (cancelJob s now id).2 id2 = findJob s id2 := by
  have h1 : (getJob s id).1 = some j := by
    rw [getJob_fst]
    exact hj
  unfold cancelJob
  cases hg : getJob s id with
  | mk opt s1 =>
    rw [hg] at h1
    simp only at h1
    subst h1
    simp only
    have hif : (if isTerminal j.status then ((false : Bool), s1)
        else (true, updateJobStatus s1 now id JobStatus.cancelled
          (some "Job cancelled by user") none)) = (false, s1) := by
      simp [hterm]
    rw [hif]
    refine ⟨rfl, ?_⟩
    intro id2
    show findJob s1 id2 = findJob s id2
    have := findJob_getJob_snd s id id2
    rw [hg] at this
    exact this

/-- Witness for C9: cancelling the Completed sample job returns false and
leaves its record intact. -/
theorem C9_cancel_terminal_noop_witness :
    (cancelJob completedState t1 "done-1").1 = false ∧
    findJob (cancelJob completedState t1 "done-1").2 "done-1"
      = some completedJob := by
  have h := C9_cancel_terminal_noop completedState t1 "done-1" completedJob
    (by decide) (by decide)
  refine ⟨h.1, ?_⟩
  rw [h.2 "done-1"]
  decide

/-- C10: on an id unknown to both cache and store, `update_job_status` and
`add_job_log` return silently without touching any state, and `cancel_job`
returns false with the state unchanged. -/
theorem C10_unknown_id_silent_noop (s : ManagerState) (now : Timestamp)
    (id : String) (st : JobStatus) (msg : Option String)
    (res : Option DeployResult) (entry : String)
    (h : findJob s id = none) :
    updateJobStatus s now id st msg res = s ∧
    addJobLog s now id entry = s ∧
    cancelJob s now id = (false, s) := by
  refine ⟨updateJobStatus_of_none s now id st msg res h,
    addJobLog_of_none s now id entry h, ?_⟩
  unfold cancelJob
  rw [getJob_of_none s id h]

/-- Witness for C10: a ghost id on a populated state. -/
theorem C10_unknown_id_silent_noop_witness :
    updateJobStatus queuedState t1 "ghost" JobStatus.running none none
      = queuedState ∧
    addJobLog queuedState t1 "ghost" "line" = queuedState ∧
    cancelJob queuedState t1 "ghost" = (false, queuedState) :=
  C10_unknown_id_silent_noop queuedState t1 "ghost" JobStatus.running none
    none "line" (by decide)

/-- A string with a non-empty prefix is truthy. -/
theorem prefixed_ne_empty (p x : String) (hp : p.length ≠ 0) :
    ((p ++ x) != "") = true := by
  rw [bne_iff_ne]
  intro he
  have hl := congrArg String.length he
  rw [String.length_append] at hl
  have h0 : ("" : String).length = 0 := rfl
  rw [h0] at hl
  exact hp (Nat.eq_zero_of_add_eq_zero_right hl)

/-- The unfiltered `list_jobs` WHERE clause accepts every row. -/
theorem jobMatchesFilter_none (j : Job) : jobMatchesFilter j none none = true := rfl

/-- The cache binding written by `update_job_status` at the written id. -/
theorem cache_lookup_updateJobStatus_self (s : ManagerState) (now : Timestamp)
    (id : String) (st : JobStatus) (msg : Option String)
    (res : Option DeployResult) (j : Job) (h : findJob s id = some j) :
    List.lookup id (updateJobStatus s now id st msg res).cache
      = some (applyStatusUpdate j now st msg res) := by
  have h1 : (getJob s id).1 = some j := by
    rw [getJob_fst]
    exact h
  unfold updateJobStatus
  cases hg : getJob s id with
  | mk opt s1 =>
    rw [hg] at h1
    simp only at h1
    subst h1
    simp only
    exact lookup_cacheSet_self s1.cache id _

/-- Observation through a state whose store changed but whose cache still
binds the id. -/
theorem findJob_mk (d : List Job) (c : List (String × Job)) (id : String)
    (j : Job) (h : List.lookup id c = some j) :
    findJob { db := d, cache := c } id = some j := by
  unfold findJob
  simp only
  rw [h]

/-- C2 counterexample: the request with components `["bogus"]` is NOT rejected
synchronously -- `deploy_components` accepts it and creates a job, the
`list_jobs` total grows from 0 to 1, and the job later ends Failed in the
background instead of never existing. -/
theorem C2_counterexample_bogus_creates_job :
    deployComponents emptyState t0 bogusReq demoUser "job-b"
      = Except.ok (createJob emptyState t0 "job-b" (mkJobData bogusReq demoUser),
          "job-b") ∧
    listJobsTotal emptyState none none = 0 ∧
    listJobsTotal (createJob emptyState t0 "job-b" (mkJobData bogusReq demoUser))
      none none = 1 ∧
    statusOf (executeDeploymentJob
      (createJob emptyState t0 "job-b" (mkJobData bogusReq demoUser))
      t1 "job-b" (mkJobData bogusReq demoUser) true (ProcOutcome.spawned 0 []))
      "job-b" = some JobStatus.failed := by
  refine ⟨rfl, ?_⟩
  decide

/-- C2 amended: unknown component names do not block job creation.
`deploy_components` validates only non-emptiness and the environment, so the
job is created (the `list_jobs` total grows by one); the executor then fails
component validation inside the background task and the job ends Failed with
a message naming exactly the unknown names. -/
theorem C2_unknown_components_deferred_failure (s : ManagerState)
    (now tExec : Timestamp) (req : ComponentRequest) (user : UserInfo)
    (id : String) (invOk : Bool) (out : ProcOutcome)
    (hne : req.components.isEmpty = false)
    (henv : environments.contains req.environment = true)
    (hinv : (invalidComponentsOf req.components).isEmpty = false)
    (hfresh : s.db.any (fun r => r.job_id == id) = false) :
    deployComponents s now req user id
      = Except.ok (createJob s now id (mkJobData req user), id) ∧
    listJobsTotal (createJob s now id (mkJobData req user)) none none
      = listJobsTotal s none none + 1 ∧
    statusOf (executeDeploymentJob (createJob s now id (mkJobData req user))
      tExec id (mkJobData req user) invOk out) id = some JobStatus.failed ∧
    (findJob (executeDeploymentJob (createJob s now id (mkJobData req user))
      tExec id (mkJobData req user) invOk out) id).map Job.message
      = some (some ("Deployment failed: " ++ ("Invalid components: "
          ++ pyReprStrList (invalidComponentsOf req.components)))) := by
  have hdeploy : deployComponents s now req user id
      = Except.ok (createJob s now id (mkJobData req user), id) := by
    unfold deployComponents
    rw [hne, henv]
    simp
  have htotal : listJobsTotal (createJob s now id (mkJobData req user)) none none
      = listJobsTotal s none none + 1 := by
    unfold listJobsTotal createJob
    rw [hfresh]
    simp [List.filter_append, jobMatchesFilter_none]
  have h0 : findJob (createJob s now id (mkJobData req user)) id
      = some (freshJob now id (mkJobData req user)) :=
    findJob_createJob_self s now id (mkJobData req user) hfresh
  have h1 : findJob (startDeploymentTask
        (createJob s now id (mkJobData req user)) tExec id) id
      = some (applyStatusUpdate (freshJob now id (mkJobData req user)) tExec
          JobStatus.running (some "Starting deployment...") none) :=
    findJob_updateJobStatus_self (createJob s now id (mkJobData req user))
      tExec id JobStatus.running (some "Starting deployment...") none
      (freshJob now id (mkJobData req user)) h0
  have hstep : executeDeploymentJob (createJob s now id (mkJobData req user))
      tExec id (mkJobData req user) invOk out
      = updateJobStatus (startDeploymentTask
          (createJob s now id (mkJobData req user)) tExec id)
        tExec id JobStatus.failed
        (some ("Deployment failed: " ++ ("Invalid components: "
          ++ pyReprStrList (invalidComponentsOf req.components))))
        (some (failResult ("Invalid components: "
            ++ pyReprStrList (invalidComponentsOf req.components))
          req.environment req.components req.execution_mode (some id))) := by
    unfold executeDeploymentJob executeComponentDeployment
    have hjde : (mkJobData req user).environment = req.environment := rfl
    have hjdc : (mkJobData req user).components = req.components := rfl
    have hjdm : (mkJobData req user).execution_mode = req.execution_mode := rfl
    rw [hjde, hjdc, hjdm, henv, hinv]
    simp [failResult, errorOrUnknown]
  have hmsgt : optStrTruthy (some ("Deployment failed: "
      ++ ("Invalid components: "
        ++ pyReprStrList (invalidComponentsOf req.components)))) = true := by
    unfold optStrTruthy
    exact prefixed_ne_empty "Deployment failed: " _ (by decide)
  have hfinal := findJob_updateJobStatus_self
    (startDeploymentTask (createJob s now id (mkJobData req user)) tExec id)
    tExec id JobStatus.failed
    (some ("Deployment failed: " ++ ("Invalid components: "
      ++ pyReprStrList (invalidComponentsOf req.components))))
    (some (failResult ("Invalid components: "
        ++ pyReprStrList (invalidComponentsOf req.components))
      req.environment req.components req.execution_mode (some id)))
    (applyStatusUpdate (freshJob now id (mkJobData req user)) tExec
      JobStatus.running (some "Starting deployment...") none) h1
  refine ⟨hdeploy, htotal, ?_, ?_⟩
  · unfold statusOf
    rw [hstep, hfinal]
    rfl
  · rw [hstep, hfinal]
    simp [applyStatusUpdate, hmsgt]

/-- Witness for the amended C2: the bogus request on the empty state. -/
theorem C2_unknown_components_deferred_failure_witness :
    (findJob (executeDeploymentJob
      (createJob emptyState t0 "job-b" (mkJobData bogusReq demoUser))
      t1 "job-b" (mkJobData bogusReq demoUser) true
      (ProcOutcome.spawned 0 [])) "job-b").map Job.message
      = some (some ("Deployment failed: " ++ ("Invalid components: "
          ++ pyReprStrList (invalidComponentsOf bogusReq.components)))) :=
  (C2_unknown_components_deferred_failure emptyState t0 t1 bogusReq demoUser
    "job-b" true (ProcOutcome.spawned 0 []) (by decide) (by decide)
    (by decide) (by decide)).2.2.2

/-- C4: for every run of the background task on a stored job with a valid
environment and known components: exit code 0 ends the job Completed with
`result.success = true`; a nonzero exit code ends it Failed with the
captured output attached to the result; and a spawn failure ends it Failed
with the error message attached -- never as an uncaught exception. -/
theorem C4_background_task_outcomes (s : ManagerState) (now : Timestamp)
    (id : String) (jd : JobData) (out : ProcOutcome) (j : Job)
    (henv : environments.contains jd.environment = true)
    (hcomp : (invalidComponentsOf jd.components).isEmpty = true)
    (hj : findJob s id = some j) :
    (∀ lines, out = ProcOutcome.spawned 0 lines →
      statusOf (executeDeploymentJob s now id jd true out) id
        = some JobStatus.completed ∧
      ((findJob (executeDeploymentJob s now id jd true out) id).bind
        Job.result).map DeployResult.success = some true) ∧
    (∀ code lines, out = ProcOutcome.spawned code lines → code ≠ 0 →
      statusOf (executeDeploymentJob s now id jd true out) id
        = some JobStatus.failed ∧
      ((findJob (executeDeploymentJob s now id jd true out) id).bind
        Job.result).bind DeployResult.stdout
        = some (String.intercalate "\n" lines)) ∧
    (∀ msg, out = ProcOutcome.spawnError msg →
      statusOf (executeDeploymentJob s now id jd true out) id
        = some JobStatus.failed ∧
      ((findJob (executeDeploymentJob s now id jd true out) id).bind
        Job.result).bind DeployResult.error = some msg) := by
  have hcache : List.lookup id (startDeploymentTask s now id).cache
      = some (applyStatusUpdate j now JobStatus.running
          (some "Starting deployment...") none) :=
    cache_lookup_updateJobStatus_self s now id JobStatus.running
      (some "Starting deployment...") none j hj
  refine ⟨?_, ?_, ?_⟩
  · intro lines hout
    subst hout
    have hstep : executeDeploymentJob s now id jd true
        (ProcOutcome.spawned 0 lines)
        = updateJobStatus
            { db := lines.foldl (fun d line => addJobLogFreshDb d now id line)
                (startDeploymentTask s now id).db,
              cache := (startDeploymentTask s now id).cache }
            now id JobStatus.completed
            (some "Deployment completed successfully")
            (some { success := true, returncode := some 0,
                    stdout := some (String.intercalate "\n" lines),
                    stderr := some "",
                    command := some (String.intercalate " " (buildCmd
                      jd.environment jd.components jd.target_hosts
                      jd.execution_mode jd.options)),
                    environment := jd.environment, components := jd.components,
                    execution_mode := some jd.execution_mode,
                    job_id := some id, error := none }) := by
      unfold executeDeploymentJob executeComponentDeployment
      rw [henv, hcomp]
      simp [runCommandWithLogging]
    have hfj2 := findJob_mk
      (lines.foldl (fun d line => addJobLogFreshDb d now id line)
        (startDeploymentTask s now id).db)
      (startDeploymentTask s now id).cache id
      (applyStatusUpdate j now JobStatus.running
        (some "Starting deployment...") none) hcache
    have hfinal := findJob_updateJobStatus_self
      { db := lines.foldl (fun d line => addJobLogFreshDb d now id line)
          (startDeploymentTask s now id).db,
        cache := (startDeploymentTask s now id).cache }
      now id JobStatus.completed (some "Deployment completed successfully")
      (some { success := true, returncode := some 0,
              stdout := some (String.intercalate "\n" lines),
              stderr := some "",
              command := some (String.intercalate " " (buildCmd
                jd.environment jd.components jd.target_hosts
                jd.execution_mode jd.options)),
              environment := jd.environment, components := jd.components,
              execution_mode := some jd.execution_mode,
              job_id := some id, error := none })
      (applyStatusUpdate j now JobStatus.running
        (some "Starting deployment...") none) hfj2
    constructor
    · unfold statusOf
      rw [hstep, hfinal]
      rfl
    · rw [hstep, hfinal]
      rfl
  · intro code lines hout hcode
    subst hout
    have hc0 : (code == 0) = false := beq_eq_false_iff_ne.mpr hcode
    have hstep : executeDeploymentJob s now id jd true
        (ProcOutcome.spawned code lines)
        = updateJobStatus
            { db := lines.foldl (fun d line => addJobLogFreshDb d now id line)
                (startDeploymentTask s now id).db,
              cache := (startDeploymentTask s now id).cache }
            now id JobStatus.failed
            (some ("Deployment failed: " ++ ""))
            (some { success := false, returncode := some code,
                    stdout := some (String.intercalate "\n" lines),
                    stderr := some "",
                    command := some (String.intercalate " " (buildCmd
                      jd.environment jd.components jd.target_hosts
                      jd.execution_mode jd.options)),
                    environment := jd.environment, components := jd.components,
                    execution_mode := some jd.execution_mode,
                    job_id := some id, error := some "" }) := by
      unfold executeDeploymentJob executeComponentDeployment
      rw [henv, hcomp]
      simp [runCommandWithLogging, hc0, errorOrUnknown]
    have hfj2 := findJob_mk
      (lines.foldl (fun d line => addJobLogFreshDb d now id line)
        (startDeploymentTask s now id).db)
      (startDeploymentTask s now id).cache id
      (applyStatusUpdate j now JobStatus.running
        (some "Starting deployment...") none) hcache
    have hfinal := findJob_updateJobStatus_self
      { db := lines.foldl (fun d line => addJobLogFreshDb d now id line)
          (startDeploymentTask s now id).db,
        cache := (startDeploymentTask s now id).cache }
      now id JobStatus.failed (some ("Deployment failed: " ++ ""))
      (some { success := false, returncode := some code,
              stdout := some (String.intercalate "\n" lines),
              stderr := some "",
              command := some (String.intercalate " " (buildCmd
                jd.environment jd.components jd.target_hosts
                jd.execution_mode jd.options)),
              environment := jd.environment, components := jd.components,
              execution_mode := some jd.execution_mode,
              job_id := some id, error := some "" })
      (applyStatusUpdate j now JobStatus.running
        (some "Starting deployment...") none) hfj2
    constructor
    · unfold statusOf
      rw [hstep, hfinal]
      rfl
    · rw [hstep, hfinal]
      rfl
  · intro msg hout
    subst hout
    have hstep : executeDeploymentJob s now id jd true
        (ProcOutcome.spawnError msg)
        = updateJobStatus
            { db := addJobLogFreshDb (startDeploymentTask s now id).db now id
                ("ERROR: " ++ msg),
              cache := (startDeploymentTask s now id).cache }
            now id JobStatus.failed
            (some ("Deployment failed: " ++ msg))
            (some { success := false, returncode := some (-1),
                    stdout := some "", stderr := some msg,
                    command := some (String.intercalate " " (buildCmd
                      jd.environment jd.components jd.target_hosts
                      jd.execution_mode jd.options)),
                    environment := jd.environment, components := jd.components,
                    execution_mode := some jd.execution_mode,
                    job_id := some id, error := some msg }) := by
      unfold executeDeploymentJob executeComponentDeployment
      rw [henv, hcomp]
      simp [runCommandWithLogging, errorOrUnknown]
    have hfj2 := findJob_mk
      (addJobLogFreshDb (startDeploymentTask s now id).db now id
        ("ERROR: " ++ msg))
      (startDeploymentTask s now id).cache id
      (applyStatusUpdate j now JobStatus.running
        (some "Starting deployment...") none) hcache
    have hfinal := findJob_updateJobStatus_self
      { db := addJobLogFreshDb (startDeploymentTask s now id).db now id
          ("ERROR: " ++ msg),
        cache := (startDeploymentTask s now id).cache }
      now id JobStatus.failed (some ("Deployment failed: " ++ msg))
      (some { success := false, returncode := some (-1),
              stdout := some "", stderr := some msg,
              command := some (String.intercalate " " (buildCmd
                jd.environment jd.components jd.target_hosts
                jd.execution_mode jd.options)),
              environment := jd.environment, components := jd.components,
              execution_mode := some jd.execution_mode,
              job_id := some id, error := some msg })
      (applyStatusUpdate j now JobStatus.running
        (some "Starting deployment...") none) hfj2
    constructor
    · unfold statusOf
      rw [hstep, hfinal]
      rfl
    · rw [hstep, hfinal]
      rfl

/-- Witness for C4: a successful run on the queued sample job ends Completed
with a successful result. -/
theorem C4_background_task_outcomes_witness :
    statusOf (executeDeploymentJob queuedState t1 "q-1" demoData true
      (ProcOutcome.spawned 0 ["PLAY RECAP", "ok=3"])) "q-1"
      = some JobStatus.completed :=
  ((C4_background_task_outcomes queuedState t1 "q-1" demoData
    (ProcOutcome.spawned 0 ["PLAY RECAP", "ok=3"]) queuedJob
    (by decide) (by decide) (by decide)).1
    ["PLAY RECAP", "ok=3"] rfl).1
